import Mathlib

/-!
Verification of the contract primitives of a coinswap implementation
(`src/contracts.rs`).  Scripts are embedded as lists of bytes (`List Nat`,
each element `< 256` where it matters), transactions as records mirroring
`bitcoin::Transaction`, and the secp256k1 group abstractly as an additive
commutative group with a distinguished generator.  SHA256-based hashing
(the P2WSH witness-script hash and the BIP143 sighash) is abstracted as a
function parameter, since only equality of hashes matters to the code
under verification.
-/

namespace Teleport

/-- The order of the secp256k1 group
(0xFFFFFFFFFFFFFFFFFFFFFFFFFFFFFFFEBAAEDCE6AF48A03BBFD25E8CD0364141). -/
def secq : Nat := 115792089237316195423570985008687907852837564279074904382605163141518161494337

/-- Structural validity of a compressed public key serialization: 33 bytes,
leading byte 2 or 3.  Membership of the encoded x-coordinate on the curve is
abstracted away (it is checked by libsecp256k1, outside this embedding);
what the proofs use is only that serialization followed by
`PublicKey::from_slice` is the identity on valid keys. -/
def PubKeyBytesOk (bs : List Nat) : Prop :=
  bs.length = 33 ∧ (bs.headD 0 = 2 ∨ bs.headD 0 = 3) ∧ ∀ b ∈ bs, b < 256

instance (bs : List Nat) : Decidable (PubKeyBytesOk bs) :=
  decidable_of_iff (bs.length = 33 ∧ (bs.headD 0 = 2 ∨ bs.headD 0 = 3) ∧ ∀ b ∈ bs, b < 256)
    Iff.rfl

/-- A compressed public key, identified with its 33-byte serialization. -/
abbrev PubKey : Type := { bs : List Nat // PubKeyBytesOk bs }

/-- A 20-byte hash160 value (`bitcoin::hashes::hash160::Hash`). -/
abbrev Hash160 : Type := { bs : List Nat // bs.length = 20 }

/-- `bitcoin::secp256k1::PublicKey::from_slice`, at byte level. -/
def pubkey_from_slice (bs : List Nat) : Option PubKey :=
  if h : PubKeyBytesOk bs then some ⟨bs, h⟩ else none

/-- The error type of the repository (`error.rs`); only the `Protocol`
variant is produced by the functions verified here. -/
inductive Error where
  | protocol : String → Error
deriving DecidableEq

/-- Outcome of a Rust computation that can panic (used where the source
indexes a slice without a bounds check). -/
inductive PResult (α : Type) where
  | ok : α → PResult α
  | panicked : PResult α
deriving DecidableEq

/-- Rust slice indexing `bs[lo..hi]`: `none` models the out-of-bounds panic. -/
def rustSlice (bs : List Nat) (lo hi : Nat) : Option (List Nat) :=
  if lo ≤ hi ∧ hi ≤ bs.length then some ((bs.drop lo).take (hi - lo)) else none

/-! ### Script builder (`bitcoin::blockdata::script::Builder`) -/

/-- `Builder::push_opcode`: append the opcode byte. -/
def push_opcode (s : List Nat) (op : Nat) : List Nat := s ++ [op]

/-- The push-length prefix written by `Builder::push_slice`. -/
def pushSliceEnc (data : List Nat) : List Nat :=
  (if data.length < 76 then [data.length]
   else if data.length < 256 then [0x4c, data.length]
   else if data.length < 65536 then [0x4d, data.length % 256, data.length / 256]
   else [0x4e, data.length % 256, data.length / 256 % 256,
         data.length / 65536 % 256, data.length / 16777216 % 256])
  ++ data

/-- `Builder::push_slice`. -/
def push_slice (s : List Nat) (data : List Nat) : List Nat := s ++ pushSliceEnc data

/-- `Builder::push_key` on a compressed key: push its 33-byte serialization. -/
def push_key (s : List Nat) (pk : PubKey) : List Nat := push_slice s pk.val

/-- The loop of `script::build_scriptint` (minimal signed little-endian
encoding).  `abs & 0xFF` is written `abs % 256`, `abs >> 8` is `abs / 256`,
`abs & 0x80 ≠ 0` is `abs / 128 % 2 = 1`, and `abs | 0x80` (with bit 7 clear)
is `abs + 0x80`. -/
def build_scriptint_loop (neg : Bool) (abs : Nat) : List Nat :=
  if 0xFF < abs then abs % 256 :: build_scriptint_loop neg (abs / 256)
  else if abs / 128 % 2 = 1 then [abs, if neg then 0x80 else 0]
  else [abs + (if neg then 0x80 else 0)]
termination_by abs
decreasing_by exact Nat.div_lt_self (by omega) (by omega)

/-- `bitcoin::blockdata::script::build_scriptint`. -/
def build_scriptint (n : Int) : List Nat :=
  if n = 0 then [] else build_scriptint_loop (n < 0) n.natAbs

/-- `Builder::push_int`: `OP_PUSHNUM` for `-1` and `1..=16`, `OP_0` for `0`,
otherwise a minimal little-endian push. -/
def push_int (s : List Nat) (n : Int) : List Nat :=
  if n = -1 ∨ (1 ≤ n ∧ n ≤ 16) then s ++ [(0x50 + n).toNat]
  else if n = 0 then s ++ [0x00]
  else push_slice s (build_scriptint n)

/-! ### Script instruction iterator (`Script::instructions`) -/

/-- The classification of an opcode byte
(`bitcoin::blockdata::opcodes::All::classify`). -/
inductive OpClass where
  | illegalOp : OpClass
  | noOp : OpClass
  | returnOp : OpClass
  | pushNum : Int → OpClass
  | pushBytes : Nat → OpClass
  | ordinary : OpClass
deriving DecidableEq

/-- `opcodes::All::classify`, byte by byte, in the source's test order. -/
def classify (b : Nat) : OpClass :=
  if b = 0x65 ∨ b = 0x66 ∨ b = 0x7e ∨ b = 0x7f ∨ b = 0x80 ∨ b = 0x81 ∨ b = 0x83 ∨
     b = 0x84 ∨ b = 0x85 ∨ b = 0x86 ∨ b = 0x8d ∨ b = 0x8e ∨ b = 0x95 ∨ b = 0x96 ∨
     b = 0x97 ∨ b = 0x98 ∨ b = 0x99 then .illegalOp
  else if b = 0x61 ∨ (0xb0 ≤ b ∧ b ≤ 0xb9) then .noOp
  else if b = 0x50 ∨ b = 0x62 ∨ b = 0x6a ∨ b = 0x89 ∨ b = 0x8a ∨ 0xba ≤ b then .returnOp
  else if b = 0x4f then .pushNum (-1)
  else if 0x51 ≤ b ∧ b ≤ 0x60 then .pushNum (1 + (b : Int) - 0x51)
  else if b ≤ 0x4b then .pushBytes b
  else .ordinary

/-- Whether a class is `PushBytes` (Boolean reflection for side conditions). -/
def isPushBytesClass : OpClass → Bool
  | .pushBytes _ => true
  | _ => false

/-- A parsed script instruction (`script::Instruction`). -/
inductive Instr where
  | pushBytes : List Nat → Instr
  | op : Nat → Instr
deriving DecidableEq

/-- One element yielded by the `Instructions` iterator: a parsed
instruction or an `EarlyEndOfScript`-style error. -/
inductive InstrResult where
  | ok : Instr → InstrResult
  | err : InstrResult
deriving DecidableEq

/-- One step of `Instructions::next`: parses the leading instruction and
returns it with the remaining bytes.  On a truncated push the iterator
reports an error and empties itself, exactly as the source does. -/
def instructionsNext : List Nat → Option (InstrResult × List Nat)
  | [] => none
  | b :: rest =>
    match classify b with
    | .pushBytes n =>
        if rest.length < n then some (.err, [])
        else some (.ok (.pushBytes (rest.take n)), rest.drop n)
    | .ordinary =>
        if b = 0x4c then
          match rest with
          | [] => some (.err, [])
          | m :: rest2 =>
              if rest2.length < m then some (.err, [])
              else some (.ok (.pushBytes (rest2.take m)), rest2.drop m)
        else if b = 0x4d then
          match rest with
          | m1 :: m2 :: rest2 =>
              if rest2.length < m1 + 256 * m2 then some (.err, [])
              else some (.ok (.pushBytes (rest2.take (m1 + 256 * m2))),
                         rest2.drop (m1 + 256 * m2))
          | _ => some (.err, [])
        else if b = 0x4e then
          match rest with
          | m1 :: m2 :: m3 :: m4 :: rest2 =>
              let m := m1 + 256 * m2 + 65536 * m3 + 16777216 * m4
              if rest2.length < m then some (.err, [])
              else some (.ok (.pushBytes (rest2.take m)), rest2.drop m)
          | _ => some (.err, [])
        else some (.ok (.op b), rest)
    | _ => some (.ok (.op b), rest)

/-- `Iterator::nth (n)` over script instructions: advance past `n`
elements and return the next one (`None` when the script is exhausted). -/
def instrNth : Nat → List Nat → Option InstrResult
  | 0, data =>
      match instructionsNext data with
      | none => none
      | some (r, _) => some r
  | m + 1, data =>
      match instructionsNext data with
      | none => none
      | some (_, rest) => instrNth m rest

/-! ### The contract redeemscript and its parsers (`contracts.rs`) -/

/-- `create_contract_redeemscript`: the hashlock/timelock contract script,
built with the opcode bytes pushed by the source
(`OP_SIZE OP_SWAP OP_HASH160 <H> OP_EQUAL OP_IF <hashlock pub> 32 1
OP_ELSE <timelock pub> 0 <locktime> OP_ENDIF OP_CSV OP_DROP OP_ROT
OP_EQUALVERIFY OP_CHECKSIG`). -/
def create_contract_redeemscript (pub_hashlock pub_timelock : PubKey)
    (hashvalue : Hash160) (locktime : Nat) : List Nat :=
  let s := push_opcode [] 0x82        -- OP_SIZE
  let s := push_opcode s 0x7c         -- OP_SWAP
  let s := push_opcode s 0xa9         -- OP_HASH160
  let s := push_slice s hashvalue.val
  let s := push_opcode s 0x87         -- OP_EQUAL
  let s := push_opcode s 0x63         -- OP_IF
  let s := push_key s pub_hashlock
  let s := push_int s 32
  let s := push_int s 1
  let s := push_opcode s 0x67         -- OP_ELSE
  let s := push_key s pub_timelock
  let s := push_int s 0
  let s := push_int s (locktime : Int)
  let s := push_opcode s 0x68         -- OP_ENDIF
  let s := push_opcode s 0xb2         -- OP_CSV
  let s := push_opcode s 0x75         -- OP_DROP
  let s := push_opcode s 0x7b         -- OP_ROT
  let s := push_opcode s 0x88         -- OP_EQUALVERIFY
  push_opcode s 0xac                  -- OP_CHECKSIG

/-- `read_hashvalue_from_contract`: bytes `[4..24]` after a length guard.
(The slice has exactly 20 bytes, so the source's `try_into` cannot fail.) -/
def read_hashvalue_from_contract (s : List Nat) : Except String (List Nat) :=
  if s.length < 25 then .error "script too short"
  else .ok ((s.drop 4).take 20)

/-- `u16::try_from` on the `i32` carried by `Class::PushNum`. -/
def i32_to_u16 (n : Int) : Option Nat :=
  if 0 ≤ n ∧ n ≤ 65535 then some n.toNat else none

/-- `read_locktime_from_contract`: instruction 12 of the script, accepting
an `OP_PUSHNUM`, a 1-byte push, or a 2/3-byte little-endian push (the
3-byte case reads only the first two bytes, as the source does). -/
def read_locktime_from_contract (s : List Nat) : Option Nat :=
  match instrNth 12 s with
  | some (.ok (.pushBytes bs)) =>
      match bs.length with
      | 1 => some (bs.headD 0)
      | 2 => some (bs.headD 0 + 256 * (bs.tail.headD 0))
      | 3 => some (bs.headD 0 + 256 * (bs.tail.headD 0))
      | _ => none
  | some (.ok (.op b)) =>
      match classify b with
      | .pushNum n => i32_to_u16 n
      | _ => none
  | _ => none

/-- `read_hashlock_pubkey_from_contract`: bytes `[27..60]` after a guard. -/
def read_hashlock_pubkey_from_contract (s : List Nat) : Except String PubKey :=
  if s.length < 61 then .error "script too short"
  else
    match pubkey_from_slice ((s.drop 27).take 33) with
    | some pk => .ok pk
    | none => .error "pubkey error"

/-- `read_timelock_pubkey_from_contract`: bytes `[65..98]` after a guard. -/
def read_timelock_pubkey_from_contract (s : List Nat) : Except String PubKey :=
  if s.length < 99 then .error "script too short"
  else
    match pubkey_from_slice ((s.drop 65).take 33) with
    | some pk => .ok pk
    | none => .error "pubkey error"

/-- `read_pubkeys_from_multisig_redeemscript`: slices `[2..35]` and
`[36..69]` with no length guard, so a short script panics (modelled by
`PResult.panicked`); invalid key bytes give `None`. -/
def read_pubkeys_from_multisig_redeemscript (s : List Nat) :
    PResult (Option (PubKey × PubKey)) :=
  match rustSlice s 2 35 with
  | none => .panicked
  | some b1 =>
    match rustSlice s 36 69 with
    | none => .panicked
    | some b2 =>
      match pubkey_from_slice b1, pubkey_from_slice b2 with
      | some p1, some p2 => .ok (some (p1, p2))
      | _, _ => .ok none

/-! ### Lemmas about the builder encodings -/

/-- The bytes `push_int` emits for a `u16` locktime, by range. -/
def lockEncode (L : Nat) : List Nat :=
  if L ≤ 16 then [0x50 + L]
  else if L ≤ 127 then [1, L]
  else if L ≤ 255 then [2, L, 0]
  else if L ≤ 32767 then [2, L % 256, L / 256]
  else [3, L % 256, L / 256, 0]

theorem build_scriptint_loop_le127 (a : Nat) (h : a ≤ 127) :
    build_scriptint_loop false a = [a] := by
  rw [build_scriptint_loop]
  rw [if_neg (by omega), if_neg (by omega)]
  simp

theorem build_scriptint_loop_hi (a : Nat) (h1 : 128 ≤ a) (h2 : a ≤ 255) :
    build_scriptint_loop false a = [a, 0] := by
  rw [build_scriptint_loop]
  rw [if_neg (by omega), if_pos (by omega)]
  simp

theorem build_scriptint_loop_two (a : Nat) (h1 : 256 ≤ a) :
    build_scriptint_loop false a = a % 256 :: build_scriptint_loop false (a / 256) := by
  conv_lhs => rw [build_scriptint_loop]
  rw [if_pos (by omega)]

theorem push_int_locktime (s : List Nat) (L : Nat) (h1 : 1 ≤ L) (h2 : L < 65536) :
    push_int s (L : Int) = s ++ lockEncode L := by
  rcases Nat.lt_or_ge L 17 with hA | hA
  · rw [push_int, if_pos (Or.inr ⟨by exact_mod_cast h1, by omega⟩)]
    rw [lockEncode, if_pos (by omega)]
    have ht : ((0x50 : Int) + (L : Int)).toNat = 0x50 + L := by omega
    rw [ht]
  · have hne1 : ¬((L : Int) = -1 ∨ (1 ≤ (L : Int) ∧ (L : Int) ≤ 16)) := by omega
    have hne0 : ¬((L : Int) = 0) := by omega
    rw [push_int, if_neg hne1, if_neg hne0, push_slice]
    rw [build_scriptint, if_neg hne0]
    have hd : decide ((L : Int) < 0) = false := by simp
    rw [hd, Int.natAbs_ofNat]
    rcases Nat.lt_or_ge L 128 with hB | hB
    · rw [build_scriptint_loop_le127 L (by omega)]
      rw [lockEncode, if_neg (by omega), if_pos (by omega)]
      simp [pushSliceEnc]
    · rcases Nat.lt_or_ge L 256 with hC | hC
      · rw [build_scriptint_loop_hi L (by omega) (by omega)]
        rw [lockEncode, if_neg (by omega), if_neg (by omega), if_pos (by omega)]
        simp [pushSliceEnc]
      · rw [build_scriptint_loop_two L (by omega)]
        rcases Nat.lt_or_ge L 32768 with hD | hD
        · rw [build_scriptint_loop_le127 (L / 256) (by omega)]
          rw [lockEncode, if_neg (by omega), if_neg (by omega), if_neg (by omega),
              if_pos (by omega)]
          simp [pushSliceEnc]
        · rw [build_scriptint_loop_hi (L / 256) (by omega) (by omega)]
          rw [lockEncode, if_neg (by omega), if_neg (by omega), if_neg (by omega),
              if_neg (by omega)]
          simp [pushSliceEnc]

theorem contract_redeemscript_bytes (ph pt : PubKey) (hv : Hash160) (L : Nat)
    (h1 : 1 ≤ L) (h2 : L < 65536) :
    create_contract_redeemscript ph pt hv L =
      [0x82, 0x7c, 0xa9, 0x14] ++ (hv.val ++ ([0x87, 0x63, 0x21] ++ (ph.val ++
        ([0x01, 0x20, 0x51, 0x67, 0x21] ++ (pt.val ++ ([0x00] ++ (lockEncode L ++
          [0x68, 0xb2, 0x75, 0x7b, 0x88, 0xac]))))))) := by
  simp only [create_contract_redeemscript]
  rw [push_int_locktime _ L h1 h2]
  have e32 : ∀ t : List Nat, push_int t 32 = t ++ [0x01, 0x20] := by
    intro t
    rw [push_int, if_neg (by norm_num), if_neg (by norm_num), push_slice]
    rw [build_scriptint, if_neg (by norm_num)]
    norm_num
    rw [build_scriptint_loop_le127 32 (by norm_num)]
    simp [pushSliceEnc]
  have e1 : ∀ t : List Nat, push_int t 1 = t ++ [0x51] := by
    intro t
    rw [push_int, if_pos (by norm_num)]
    norm_num
    decide
  have e0 : ∀ t : List Nat, push_int t 0 = t ++ [0x00] := by
    intro t
    rw [push_int, if_neg (by norm_num), if_pos rfl]
  rw [e32, e1, e0]
  simp [push_opcode, push_key, push_slice, pushSliceEnc, hv.2, ph.2.1, pt.2.1]

/-! ### Stepping the instruction iterator -/

theorem instructionsNext_op (b : Nat) (r : List Nat)
    (h1 : isPushBytesClass (classify b) = false)
    (h2 : b ≠ 0x4c) (h3 : b ≠ 0x4d) (h4 : b ≠ 0x4e) :
    instructionsNext (b :: r) = some (.ok (.op b), r) := by
  unfold instructionsNext
  cases hc : classify b <;> simp_all [isPushBytesClass]

theorem instructionsNext_push (b : Nat) (l r : List Nat)
    (h : classify b = .pushBytes l.length) :
    instructionsNext (b :: (l ++ r)) = some (.ok (.pushBytes l), r) := by
  simp only [instructionsNext, h]
  rw [if_neg (by simp)]
  rw [List.take_left, List.drop_left]

theorem instructionsNext_push1 (a : Nat) (r : List Nat) :
    instructionsNext (0x01 :: a :: r) = some (.ok (.pushBytes [a]), r) := by
  simpa using instructionsNext_push 0x01 [a] r (by simp only [List.length_singleton]; decide)

theorem instructionsNext_push2 (a b : Nat) (r : List Nat) :
    instructionsNext (0x02 :: a :: b :: r) = some (.ok (.pushBytes [a, b]), r) := by
  have h : classify 0x02 = .pushBytes ([a, b] : List Nat).length := by
    simp only [List.length_cons, List.length_singleton]
    decide
  simpa using instructionsNext_push 0x02 [a, b] r h

theorem instructionsNext_push3 (a b c : Nat) (r : List Nat) :
    instructionsNext (0x03 :: a :: b :: c :: r) = some (.ok (.pushBytes [a, b, c]), r) := by
  have h : classify 0x03 = .pushBytes ([a, b, c] : List Nat).length := by
    simp only [List.length_cons, List.length_singleton]
    decide
  simpa using instructionsNext_push 0x03 [a, b, c] r h

theorem instructionsNext_push0 (r : List Nat) :
    instructionsNext (0x00 :: r) = some (.ok (.pushBytes []), r) := by
  simpa using instructionsNext_push 0x00 [] r (by simp only [List.length_nil]; decide)

theorem instrNth_zero (data r : List Nat) (x : InstrResult)
    (h : instructionsNext data = some (x, r)) : instrNth 0 data = some x := by
  unfold instrNth
  rw [h]

theorem instrNth_step (n : Nat) (data r : List Nat) (x : InstrResult) (hn : n ≠ 0)
    (h : instructionsNext data = some (x, r)) :
    instrNth n data = instrNth (n - 1) r := by
  cases n with
  | zero => exact absurd rfl hn
  | succ m =>
      conv_lhs => unfold instrNth
      rw [h]
      simp

theorem classify_pushnum (L : Nat) (h1 : 1 ≤ L) (h2 : L ≤ 16) :
    classify (0x50 + L) = .pushNum (L : Int) := by
  unfold classify
  rw [if_neg (by omega), if_neg (by omega), if_neg (by omega), if_neg (by omega),
      if_pos (by omega)]
  congr 1
  omega

/-- Instruction 12 of a built contract script is its locktime push. -/
theorem instrNth12_contract (ph pt : PubKey) (hv : Hash160) (L : Nat)
    (h1 : 1 ≤ L) (h2 : L < 65536) :
    instrNth 12 (create_contract_redeemscript ph pt hv L) =
      instrNth 0 (lockEncode L ++ [0x68, 0xb2, 0x75, 0x7b, 0x88, 0xac]) := by
  rw [contract_redeemscript_bytes ph pt hv L h1 h2]
  simp only [List.cons_append, List.nil_append]
  rw [instrNth_step 12 _ _ _ (by norm_num)
        (instructionsNext_op 0x82 _ (by decide) (by decide) (by decide) (by decide))]
  norm_num
  rw [instrNth_step 11 _ _ _ (by norm_num)
        (instructionsNext_op 0x7c _ (by decide) (by decide) (by decide) (by decide))]
  norm_num
  rw [instrNth_step 10 _ _ _ (by norm_num)
        (instructionsNext_op 0xa9 _ (by decide) (by decide) (by decide) (by decide))]
  norm_num
  rw [instrNth_step 9 _ _ _ (by norm_num)
        (instructionsNext_push 0x14 hv.val _ (by rw [hv.2]; decide))]
  norm_num
  rw [instrNth_step 8 _ _ _ (by norm_num)
        (instructionsNext_op 0x87 _ (by decide) (by decide) (by decide) (by decide))]
  norm_num
  rw [instrNth_step 7 _ _ _ (by norm_num)
        (instructionsNext_op 0x63 _ (by decide) (by decide) (by decide) (by decide))]
  norm_num
  rw [instrNth_step 6 _ _ _ (by norm_num)
        (instructionsNext_push 0x21 ph.val _ (by rw [ph.2.1]; decide))]
  norm_num
  rw [instrNth_step 5 _ _ _ (by norm_num) (instructionsNext_push1 0x20 _)]
  norm_num
  rw [instrNth_step 4 _ _ _ (by norm_num)
        (instructionsNext_op 0x51 _ (by decide) (by decide) (by decide) (by decide))]
  norm_num
  rw [instrNth_step 3 _ _ _ (by norm_num)
        (instructionsNext_op 0x67 _ (by decide) (by decide) (by decide) (by decide))]
  norm_num
  rw [instrNth_step 2 _ _ _ (by norm_num)
        (instructionsNext_push 0x21 pt.val _ (by rw [pt.2.1]; decide))]
  norm_num
  rw [instrNth_step 1 _ _ _ (by norm_num) (instructionsNext_push0 _)]

/-- Extract the middle block of an append at a known offset and width. -/
theorem extract_mid (a b c : List Nat) (n m : Nat) (ha : a.length = n) (hb : b.length = m) :
    ((a ++ (b ++ c)).drop n).take m = b := by
  rw [List.drop_left' ha, List.take_left' hb]

theorem contract_redeemscript_length (ph pt : PubKey) (hv : Hash160) (L : Nat)
    (h1 : 1 ≤ L) (h2 : L < 65536) :
    (create_contract_redeemscript ph pt hv L).length = 105 + (lockEncode L).length := by
  rw [contract_redeemscript_bytes ph pt hv L h1 h2]
  simp [hv.2, ph.2.1, pt.2.1]
  omega

/-- C1.  Parsing a built contract script recovers the hash value, the
locktime, the hashlock public key and the timelock public key exactly,
for every locktime in `[1, 2^16)`. -/
theorem C1_contract_script_roundtrip (ph pt : PubKey) (hv : Hash160) (L : Nat)
    (h1 : 1 ≤ L) (h2 : L < 65536) :
    read_hashvalue_from_contract (create_contract_redeemscript ph pt hv L) = .ok hv.val
  ∧ read_locktime_from_contract (create_contract_redeemscript ph pt hv L) = some L
  ∧ read_hashlock_pubkey_from_contract (create_contract_redeemscript ph pt hv L) = .ok ph
  ∧ read_timelock_pubkey_from_contract (create_contract_redeemscript ph pt hv L) = .ok pt := by
  have hbytes := contract_redeemscript_bytes ph pt hv L h1 h2
  have hlen := contract_redeemscript_length ph pt hv L h1 h2
  have hsplit27 : create_contract_redeemscript ph pt hv L =
      ([0x82, 0x7c, 0xa9, 0x14] ++ hv.val ++ [0x87, 0x63, 0x21]) ++ (ph.val ++
        ([0x01, 0x20, 0x51, 0x67, 0x21] ++ (pt.val ++ ([0x00] ++ (lockEncode L ++
          [0x68, 0xb2, 0x75, 0x7b, 0x88, 0xac]))))) := by
    rw [hbytes]
    simp [List.append_assoc]
  have hsplit65 : create_contract_redeemscript ph pt hv L =
      ([0x82, 0x7c, 0xa9, 0x14] ++ hv.val ++ [0x87, 0x63, 0x21] ++ ph.val ++
        [0x01, 0x20, 0x51, 0x67, 0x21]) ++ (pt.val ++ ([0x00] ++ (lockEncode L ++
          [0x68, 0xb2, 0x75, 0x7b, 0x88, 0xac]))) := by
    rw [hbytes]
    simp [List.append_assoc]
  refine ⟨?_, ?_, ?_, ?_⟩
  · rw [read_hashvalue_from_contract, if_neg (by omega)]
    rw [hbytes, extract_mid _ _ _ 4 20 (by rfl) hv.2]
  · have h12 := instrNth12_contract ph pt hv L h1 h2
    rcases Nat.lt_or_ge L 17 with hA | hA
    · have hle : lockEncode L = [0x50 + L] := by rw [lockEncode, if_pos (by omega)]
      rw [hle] at h12
      simp only [List.cons_append, List.nil_append] at h12
      rw [instrNth_zero _ _ _ (instructionsNext_op (0x50 + L) _
            (by rw [classify_pushnum L h1 (by omega)]; rfl)
            (by omega) (by omega) (by omega))] at h12
      simp only [read_locktime_from_contract, h12, classify_pushnum L h1 (by omega)]
      rw [i32_to_u16, if_pos (by omega)]
      simp
    · rcases Nat.lt_or_ge L 128 with hB | hB
      · have hle : lockEncode L = [1, L] := by
          rw [lockEncode, if_neg (by omega), if_pos (by omega)]
        rw [hle] at h12
        simp only [List.cons_append, List.nil_append] at h12
        rw [instrNth_zero _ _ _ (instructionsNext_push1 L _)] at h12
        simp only [read_locktime_from_contract, h12]
        simp
      · rcases Nat.lt_or_ge L 256 with hC | hC
        · have hle : lockEncode L = [2, L, 0] := by
            rw [lockEncode, if_neg (by omega), if_neg (by omega), if_pos (by omega)]
          rw [hle] at h12
          simp only [List.cons_append, List.nil_append] at h12
          rw [instrNth_zero _ _ _ (instructionsNext_push2 L 0 _)] at h12
          simp only [read_locktime_from_contract, h12]
          simp
        · rcases Nat.lt_or_ge L 32768 with hD | hD
          · have hle : lockEncode L = [2, L % 256, L / 256] := by
              rw [lockEncode, if_neg (by omega), if_neg (by omega), if_neg (by omega),
                  if_pos (by omega)]
            rw [hle] at h12
            simp only [List.cons_append, List.nil_append] at h12
            rw [instrNth_zero _ _ _ (instructionsNext_push2 (L % 256) (L / 256) _)] at h12
            simp only [read_locktime_from_contract, h12]
            simp
            omega
          · have hle : lockEncode L = [3, L % 256, L / 256, 0] := by
              rw [lockEncode, if_neg (by omega), if_neg (by omega), if_neg (by omega),
                  if_neg (by omega)]
            rw [hle] at h12
            simp only [List.cons_append, List.nil_append] at h12
            rw [instrNth_zero _ _ _ (instructionsNext_push3 (L % 256) (L / 256) 0 _)] at h12
            simp only [read_locktime_from_contract, h12]
            simp
            omega
  · rw [read_hashlock_pubkey_from_contract, if_neg (by omega)]
    rw [hsplit27, extract_mid _ _ _ 27 33 (by simp [hv.2]) ph.2.1]
    rw [pubkey_from_slice, dif_pos ph.2]
  · rw [read_timelock_pubkey_from_contract, if_neg (by omega)]
    rw [hsplit65, extract_mid _ _ _ 65 33 (by simp [hv.2, ph.2.1]) pt.2.1]
    rw [pubkey_from_slice, dif_pos pt.2]

/-! ### Transactions (`bitcoin::Transaction` and friends) -/

/-- `bitcoin::OutPoint`: a txid (32 bytes) and an output index. -/
structure OutPoint where
  txid : List Nat
  vout : Nat
deriving DecidableEq

/-- `bitcoin::TxIn`. -/
structure TxIn where
  previous_output : OutPoint
  sequence : Nat
  witness : List (List Nat)
  script_sig : List Nat
deriving DecidableEq

/-- `bitcoin::TxOut`. -/
structure TxOut where
  value : Nat
  script_pubkey : List Nat
deriving DecidableEq

/-- `bitcoin::Transaction`. -/
structure Transaction where
  version : Int
  lock_time : Nat
  input : List TxIn
  output : List TxOut
deriving DecidableEq

/-- Two's-complement wrap of `a - b` on `u64` operands (the release-mode
semantics of Rust's overflowing subtraction). -/
def u64_wrapping_sub (a b : Nat) : Nat :=
  (a + 18446744073709551616 - b % 18446744073709551616) % 18446744073709551616

/-- Two's-complement wrap of `a - b` on `u16` operands. -/
def u16_wrapping_sub (a b : Nat) : Nat :=
  (a + 65536 - b % 65536) % 65536

section P2WSH

variable (wsh : List Nat → List Nat)

/-- `redeemscript_to_scriptpubkey`: the version-0 witness program
`OP_0 <push 32> <sha256(redeemscript)>`; the SHA256 witness-script hash is
the abstract parameter `wsh`. -/
def redeemscript_to_scriptpubkey (redeemscript : List Nat) : List Nat :=
  0x00 :: 0x20 :: wsh redeemscript

/-- `create_senders_contract_tx`: one input spending the given outpoint
(sequence 0, empty scriptSig and witness), one output of
`input_value - 1000` (u64 subtraction) to the P2WSH of the redeemscript,
version 2, locktime 0. -/
def create_senders_contract_tx (input : OutPoint) (input_value : Nat)
    (contract_redeemscript : List Nat) : Transaction :=
  { input := [{ previous_output := input, sequence := 0, witness := [], script_sig := [] }],
    output := [{ value := u64_wrapping_sub input_value 1000,
                 script_pubkey := redeemscript_to_scriptpubkey wsh contract_redeemscript }],
    lock_time := 0,
    version := 2 }

/-- `create_receivers_contract_tx`: the source delegates to
`create_senders_contract_tx` unchanged. -/
def create_receivers_contract_tx (input : OutPoint) (input_value : Nat)
    (contract_redeemscript : List Nat) : Transaction :=
  create_senders_contract_tx wsh input input_value contract_redeemscript

/-- `validate_contract_tx`: single input and output, optionally spending a
given outpoint, paying the P2WSH of the given redeemscript. -/
def validate_contract_tx (receivers_contract_tx : Transaction)
    (funding_outpoint : Option OutPoint) (contract_redeemscript : List Nat) :
    Except Error Unit :=
  match receivers_contract_tx.input, receivers_contract_tx.output with
  | [inp], [out] =>
      if (match funding_outpoint with
          | some op => decide (inp.previous_output ≠ op)
          | none => false) then
        .error (.protocol "not spending the funding outpoint")
      else if out.script_pubkey ≠ redeemscript_to_scriptpubkey wsh contract_redeemscript then
        .error (.protocol "doesnt pay to requested contract")
      else .ok ()
  | _, _ => .error (.protocol "invalid number of inputs or outputs")

/-- `is_contract_out_valid`: minimum-locktime bound plus equality of the
output script with the P2WSH of the reconstructed contract. -/
def is_contract_out_valid (contract_output : TxOut)
    (hashlock_pubkey timelock_pubkey : PubKey) (hashvalue : Hash160)
    (locktime minimum_locktime : Nat) : Except Error Unit :=
  if minimum_locktime > locktime then .error (.protocol "locktime too short")
  else if contract_output.script_pubkey ≠
      redeemscript_to_scriptpubkey wsh
        (create_contract_redeemscript hashlock_pubkey timelock_pubkey hashvalue locktime) then
    .error (.protocol "given transaction does not pay to requested contract")
  else .ok ()

end P2WSH

/-- The reaction-time check of `verify_proof_of_funding` (contracts.rs
lines 441–447), after the locktime has been read from the contract: reject
with "locktime too short" when `locktime - next_locktime` is below
`min_contract_react_time`.  All three quantities are `u16`, so the
subtraction wraps on underflow.  (The surrounding RPC and wallet steps of
`verify_proof_of_funding` are outside this embedding.) -/
def verify_proof_of_funding_locktime_check
    (locktime next_locktime min_contract_react_time : Nat) : Except Error Unit :=
  if u16_wrapping_sub locktime next_locktime < min_contract_react_time then
    .error (.protocol "locktime too short")
  else .ok ()

/-- C4 counterexample: at `input_value = 0` the u64 subtraction in
`create_senders_contract_tx` wraps, so the output value is `2^64 - 1000`
rather than `input_value - 1000` (which would be `0` as a truncated
natural and `-1000` as an integer). -/
theorem C4_counterexample :
    ((create_senders_contract_tx (fun l => l) ⟨[], 0⟩ 0 []).output.headD ⟨0, []⟩).value
        = 18446744073709550616
  ∧ ((create_senders_contract_tx (fun l => l) ⟨[], 0⟩ 0 []).output.headD ⟨0, []⟩).value
        ≠ 0 - 1000
  ∧ (((create_senders_contract_tx (fun l => l) ⟨[], 0⟩ 0 []).output.headD ⟨0, []⟩).value : Int)
        ≠ (0 : Int) - 1000 := by
  refine ⟨by decide, by decide, by decide⟩

/-- C4 (amended): for `1000 ≤ input_value < 2^64`,
`create_senders_contract_tx` returns exactly the transaction with version
2, locktime 0, one input spending the outpoint with sequence 0 and empty
scriptSig/witness, and one output of `input_value - 1000` paying the
P2WSH of the redeemscript; below 1000 the u64 subtraction wraps. -/
theorem C4_senders_contract_tx_shape (wsh : List Nat → List Nat) (op : OutPoint)
    (input_value : Nat) (rs : List Nat) (h1 : 1000 ≤ input_value)
    (h2 : input_value < 18446744073709551616) :
    create_senders_contract_tx wsh op input_value rs =
      { version := 2, lock_time := 0,
        input := [{ previous_output := op, sequence := 0, witness := [], script_sig := [] }],
        output := [{ value := input_value - 1000,
                     script_pubkey := 0x00 :: 0x20 :: wsh rs }] } := by
  have hval : u64_wrapping_sub input_value 1000 = input_value - 1000 := by
    unfold u64_wrapping_sub
    omega
  simp [create_senders_contract_tx, redeemscript_to_scriptpubkey, hval]

theorem C4_senders_contract_tx_shape_witness :
    (1000 : Nat) ≤ 30000 ∧ (30000 : Nat) < 18446744073709551616 ∧
    create_senders_contract_tx (fun l => l) ⟨[7], 42⟩ 30000 [1, 2] =
      { version := 2, lock_time := 0,
        input := [{ previous_output := ⟨[7], 42⟩, sequence := 0, witness := [],
                    script_sig := [] }],
        output := [{ value := 30000 - 1000, script_pubkey := 0x00 :: 0x20 :: [1, 2] }] } :=
  ⟨by norm_num, by norm_num,
   C4_senders_contract_tx_shape (fun l => l) ⟨[7], 42⟩ 30000 [1, 2] (by norm_num) (by norm_num)⟩

/-- C5: the reaction-time check of `verify_proof_of_funding` PASSES when
the next-hop locktime exceeds the contract locktime, because the u16
subtraction wraps around: at `locktime = 5`, `next_locktime = 10`,
`min_contract_react_time = 20` the wrapped difference is 65531, the check
accepts, yet the true difference `5 - 10 = -5` violates the bound (and in
a debug build the subtraction would panic instead of rejecting). -/
theorem C5_locktime_check_underflow :
    verify_proof_of_funding_locktime_check 5 10 20 = .ok ()
  ∧ u16_wrapping_sub 5 10 = 65531
  ∧ (5 : Int) - 10 < 20 := by
  refine ⟨rfl, by decide, by norm_num⟩

/-- C7: the three contract parsers guard their offsets and fail with
"script too short" on short scripts, but
`read_pubkeys_from_multisig_redeemscript` has no length guard and panics
(out-of-bounds slice) on any script shorter than 69 bytes — shown here on
the empty script and on a 68-byte script. -/
theorem C7_short_script_behaviour :
    read_hashvalue_from_contract [] = .error "script too short"
  ∧ read_hashlock_pubkey_from_contract [] = .error "script too short"
  ∧ read_timelock_pubkey_from_contract [] = .error "script too short"
  ∧ read_pubkeys_from_multisig_redeemscript [] = .panicked
  ∧ read_pubkeys_from_multisig_redeemscript (List.replicate 68 2) = .panicked := by
  refine ⟨rfl, rfl, rfl, by decide, by decide⟩

/-- C9: `validate_contract_tx` checks its three conditions in order, each
with its exact diagnostic: input/output counts other than one, then (when
a funding outpoint is supplied) the spent outpoint, then the output
script, and returns `Ok` when all three hold. -/
theorem C9_validate_contract_tx_cases (wsh : List Nat → List Nat) :
    (∀ (tx : Transaction) (fo : Option OutPoint) (rs : List Nat),
        ¬(tx.input.length = 1 ∧ tx.output.length = 1) →
        validate_contract_tx wsh tx fo rs =
          .error (.protocol "invalid number of inputs or outputs"))
  ∧ (∀ (v : Int) (lt : Nat) (inp : TxIn) (out : TxOut) (op : OutPoint) (rs : List Nat),
        inp.previous_output ≠ op →
        validate_contract_tx wsh ⟨v, lt, [inp], [out]⟩ (some op) rs =
          .error (.protocol "not spending the funding outpoint"))
  ∧ (∀ (v : Int) (lt : Nat) (inp : TxIn) (out : TxOut) (fo : Option OutPoint)
        (rs : List Nat),
        (fo = none ∨ fo = some inp.previous_output) →
        out.script_pubkey ≠ redeemscript_to_scriptpubkey wsh rs →
        validate_contract_tx wsh ⟨v, lt, [inp], [out]⟩ fo rs =
          .error (.protocol "doesnt pay to requested contract"))
  ∧ (∀ (v : Int) (lt : Nat) (inp : TxIn) (out : TxOut) (fo : Option OutPoint)
        (rs : List Nat),
        (fo = none ∨ fo = some inp.previous_output) →
        out.script_pubkey = redeemscript_to_scriptpubkey wsh rs →
        validate_contract_tx wsh ⟨v, lt, [inp], [out]⟩ fo rs = .ok ()) := by
  refine ⟨?_, ?_, ?_, ?_⟩
  · intro tx fo rs h
    obtain ⟨v, lt, ins, outs⟩ := tx
    rcases ins with _ | ⟨i1, ins⟩
    · rfl
    · rcases ins with _ | ⟨i2, ins⟩
      · rcases outs with _ | ⟨o1, outs⟩
        · rfl
        · rcases outs with _ | ⟨o2, outs⟩
          · exact absurd (by simp) h
          · rfl
      · rfl
  · intro v lt inp out op rs hne
    simp [validate_contract_tx, hne]
  · intro v lt inp out fo rs hfo hspk
    rcases hfo with hfo | hfo <;> subst hfo <;> simp [validate_contract_tx, hspk]
  · intro v lt inp out fo rs hfo hspk
    rcases hfo with hfo | hfo <;> subst hfo <;> simp [validate_contract_tx, hspk]

theorem C9_validate_contract_tx_cases_witness :
    validate_contract_tx (fun l => l) ⟨2, 0, [⟨⟨[], 0⟩, 0, [], []⟩], [⟨5, []⟩]⟩
        (some ⟨[], 1⟩) [] = .error (.protocol "not spending the funding outpoint") :=
  (C9_validate_contract_tx_cases (fun l => l)).2.1 2 0 ⟨⟨[], 0⟩, 0, [], []⟩ ⟨5, []⟩
    ⟨[], 1⟩ [] (by decide)

/-- C10: `create_receivers_contract_tx` is a pure alias of
`create_senders_contract_tx`: it returns the identical transaction for
all arguments. -/
theorem C10_receivers_eq_senders (wsh : List Nat → List Nat) (op : OutPoint)
    (input_value : Nat) (rs : List Nat) :
    create_receivers_contract_tx wsh op input_value rs =
      create_senders_contract_tx wsh op input_value rs := rfl

/-- Whether a class is `PushNum` (Boolean reflection for side conditions). -/
def isPushNumClass : OpClass → Bool
  | .pushNum _ => true
  | _ => false

/-- C6: `read_locktime_from_contract` returns the same `u16` regardless of
encoding — `OP_PUSHNUM_N` yields `N`, a 1-byte push yields the byte, and a
2-byte or a 3-byte push both yield the little-endian `u16` of the first
two bytes only; every other shape of instruction 12 yields `None`. -/
theorem C6_read_locktime_encodings :
    (∀ (s : List Nat) (n : Nat), 1 ≤ n → n ≤ 16 →
        instrNth 12 s = some (.ok (.op (0x50 + n))) →
        read_locktime_from_contract s = some n)
  ∧ (∀ (s : List Nat) (a : Nat),
        instrNth 12 s = some (.ok (.pushBytes [a])) →
        read_locktime_from_contract s = some a)
  ∧ (∀ (s : List Nat) (a b : Nat), a < 256 → b < 256 →
        instrNth 12 s = some (.ok (.pushBytes [a, b])) →
        read_locktime_from_contract s = some (a + 256 * b))
  ∧ (∀ (s : List Nat) (a b c : Nat), a < 256 → b < 256 →
        instrNth 12 s = some (.ok (.pushBytes [a, b, c])) →
        read_locktime_from_contract s = some (a + 256 * b))
  ∧ (∀ (s : List Nat) (bs : List Nat),
        instrNth 12 s = some (.ok (.pushBytes bs)) → (bs = [] ∨ 4 ≤ bs.length) →
        read_locktime_from_contract s = none)
  ∧ (∀ (s : List Nat) (b : Nat),
        instrNth 12 s = some (.ok (.op b)) → isPushNumClass (classify b) = false →
        read_locktime_from_contract s = none)
  ∧ (∀ s : List Nat,
        instrNth 12 s = some (.ok (.op 0x4f)) →
        read_locktime_from_contract s = none) := by
  refine ⟨?_, ?_, ?_, ?_, ?_, ?_, ?_⟩
  · intro s n h1 h2 h
    simp only [read_locktime_from_contract, h, classify_pushnum n h1 h2]
    rw [i32_to_u16, if_pos (by omega)]
    simp
  · intro s a h
    simp only [read_locktime_from_contract, h]
    simp
  · intro s a b ha hb h
    simp only [read_locktime_from_contract, h]
    simp
  · intro s a b c ha hb h
    simp only [read_locktime_from_contract, h]
    simp
  · intro s bs h hlen
    simp only [read_locktime_from_contract, h]
    rcases hlen with hlen | hlen
    · subst hlen
      simp
    · obtain ⟨m, hm⟩ : ∃ m, bs.length = m + 4 := ⟨bs.length - 4, by omega⟩
      rw [hm]
      rfl
  · intro s b h hcl
    simp only [read_locktime_from_contract, h]
    cases hc : classify b <;> simp_all [isPushNumClass]
  · intro s h
    simp only [read_locktime_from_contract, h]
    rfl

theorem C6_read_locktime_encodings_witness :
    read_locktime_from_contract (List.replicate 13 0x51) = some 1
  ∧ read_locktime_from_contract (List.replicate 12 0x51 ++ [0x01, 0x28]) = some 40
  ∧ read_locktime_from_contract (List.replicate 12 0x51 ++ [0x03, 0x00, 0x80, 0x00])
      = some (0 + 256 * 128) :=
  ⟨C6_read_locktime_encodings.1 (List.replicate 13 0x51) 1 (by decide) (by decide) (by decide),
   C6_read_locktime_encodings.2.1 (List.replicate 12 0x51 ++ [0x01, 0x28]) 40 (by decide),
   C6_read_locktime_encodings.2.2.2.1 (List.replicate 12 0x51 ++ [0x03, 0x00, 0x80, 0x00])
     0 128 0 (by decide) (by decide) (by decide)⟩

/-! ### Key tweaking over the abstract secp256k1 group -/

/-- `bitcoin::util::ecdsa::PublicKey`: a group element plus the
compression flag. -/
structure SecpPublicKey (Point : Type) where
  compressed : Bool
  key : Point
deriving DecidableEq

section Secp

variable {Point : Type} [AddCommGroup Point] [DecidableEq Point]

/-- `secp256k1::PublicKey::from_secret_key`: scalar multiplication of the
generator `G` by the secret scalar. -/
def from_secret_key (G : Point) (d : Nat) : Point := d • G

/-- `secp256k1::PublicKey::combine`: point addition, which libsecp rejects
exactly when the sum is the point at infinity (the group identity). -/
def combine (p q : Point) : Option Point :=
  if p + q = 0 then none else some (p + q)

/-- `SecretKey::add_assign`: scalar addition modulo the group order,
rejected when the result is the zero scalar. -/
def secp_add_assign (d n : Nat) : Option Nat :=
  if (d + n) % secq = 0 then none else some ((d + n) % secq)

/-- `calculate_maker_pubkey_from_nonce`: add the nonce point `n·G` to the
tweakable point and mark the result compressed; the `combine` failure
propagates. -/
def calculate_maker_pubkey_from_nonce (G : Point) (tweakable_point : SecpPublicKey Point)
    (nonce : Nat) : Option (SecpPublicKey Point) :=
  match combine tweakable_point.key (from_secret_key G nonce) with
  | none => none
  | some k => some ⟨true, k⟩

/-- C3: key-tweaking homomorphism.  Over any group in which the generator
`G` satisfies `secq • G = 0` (as the secp256k1 generator does), for every
secret scalar `d` and nonce `n` such that `d + n mod q` is nonzero and the
summed point is not the point at infinity,
`calculate_maker_pubkey_from_nonce` applied to `d·G` returns exactly the
compressed public key `((d + n) mod q)·G`. -/
theorem C3_tweak_homomorphism (G : Point) (hG : secq • G = 0) (d n : Nat)
    (hsum : (d + n) % secq ≠ 0)
    (hinf : from_secret_key G d + from_secret_key G n ≠ 0) :
    calculate_maker_pubkey_from_nonce G ⟨true, from_secret_key G d⟩ n =
      some ⟨true, from_secret_key G ((d + n) % secq)⟩ := by
  have key : from_secret_key G d + from_secret_key G n =
      from_secret_key G ((d + n) % secq) := by
    unfold from_secret_key
    rw [← add_nsmul]
    conv_lhs => rw [← Nat.mod_add_div' (d + n) secq]
    rw [add_nsmul, mul_smul, hG, smul_zero, add_zero]
  unfold calculate_maker_pubkey_from_nonce combine
  simp only []
  rw [if_neg hinf, key]

theorem C3_tweak_homomorphism_witness :
    secq • (1 : ZMod secq) = 0
  ∧ (1 + 1) % secq ≠ 0
  ∧ from_secret_key (1 : ZMod secq) 1 + from_secret_key (1 : ZMod secq) 1 ≠ 0
  ∧ calculate_maker_pubkey_from_nonce (1 : ZMod secq) ⟨true, from_secret_key 1 1⟩ 1 =
      some ⟨true, from_secret_key 1 ((1 + 1) % secq)⟩ := by
  have h0 : secq • (1 : ZMod secq) = 0 := by
    rw [nsmul_eq_mul, ZMod.natCast_self, zero_mul]
  have h1 : (1 + 1) % secq ≠ 0 := by
    rw [Nat.mod_eq_of_lt (by norm_num [secq])]
    norm_num
  have h2 : from_secret_key (1 : ZMod secq) 1 + from_secret_key (1 : ZMod secq) 1 ≠ 0 := by
    unfold from_secret_key
    rw [one_nsmul]
    intro hcontra
    have : ((2 : Nat) : ZMod secq) = 0 := by push_cast; linear_combination hcontra
    rw [ZMod.natCast_zmod_eq_zero_iff_dvd] at this
    have := Nat.le_of_dvd (by norm_num) this
    norm_num [secq] at this
  exact ⟨h0, h1, h2, C3_tweak_homomorphism (1 : ZMod secq) h0 1 1 h1 h2⟩

/-! ### BIP143 signing and verification -/

/-- `secp256k1::Message::from_slice`: succeeds exactly on 32-byte digests. -/
def message_from_slice (h : List Nat) : Option (List Nat) :=
  if h.length = 32 then some h else none

section Sighash

variable (bip143_hash : Transaction → Nat → List Nat → Nat → List Nat)

/-- `SigHashCache::signature_hash`: rust-bitcoin 0.26 indexes
`tx.input[input_index]` without a bounds check while encoding the signing
data, so the call panics when the transaction has too few inputs; the
digest bytes themselves are the abstract parameter `bip143_hash`. -/
def signature_hash (tx : Transaction) (input_index : Nat) (script_code : List Nat)
    (value : Nat) : PResult (List Nat) :=
  if input_index < tx.input.length then
    .ok (bip143_hash tx input_index script_code value)
  else .panicked

variable (ecdsa_verify : List Nat → Nat → Nat → Bool)
variable (ecdsa_sign : List Nat → Nat → Nat)

/-- `verify_contract_tx_sig`: BIP143 sighash of input 0, `false` when
`Message::from_slice` rejects the digest, otherwise the ECDSA verdict. -/
def verify_contract_tx_sig (contract_tx : Transaction)
    (multisig_redeemscript : List Nat) (funding_amount : Nat) (pubkey sig : Nat) :
    PResult Bool :=
  match signature_hash bip143_hash contract_tx 0 multisig_redeemscript funding_amount with
  | .panicked => .panicked
  | .ok h =>
      match message_from_slice h with
      | none => .ok false
      | some m => .ok (ecdsa_verify m sig pubkey)

/-- `sign_contract_tx`: BIP143 sighash of input 0, `None` (a
`secp256k1::Error`) when `Message::from_slice` rejects the digest,
otherwise the ECDSA signature. -/
def sign_contract_tx (contract_tx : Transaction) (multisig_redeemscript : List Nat)
    (funding_amount : Nat) (privkey : Nat) : PResult (Option Nat) :=
  match signature_hash bip143_hash contract_tx 0 multisig_redeemscript funding_amount with
  | .panicked => .panicked
  | .ok h =>
      match message_from_slice h with
      | none => .ok none
      | some m => .ok (some (ecdsa_sign m privkey))

end Sighash

/-- C8 counterexample: on a transaction with no inputs, the sighash
computation inside `verify_contract_tx_sig` indexes input 0 out of bounds
and panics, so the function does not return a boolean there. -/
theorem C8_counterexample :
    verify_contract_tx_sig (fun _ _ _ _ => []) (fun _ _ _ => true)
      ⟨2, 0, [], []⟩ [] 0 0 0 = .panicked := rfl

/-- C8 (amended): for every transaction with at least one input (and all
other arguments), `verify_contract_tx_sig` returns a boolean: `false`
when `Message::from_slice` rejects the computed sighash, and the ECDSA
verification verdict otherwise.  (With no inputs the underlying sighash
computation panics, per `C8_counterexample`.) -/
theorem C8_verify_total_with_input
    (bip143_hash : Transaction → Nat → List Nat → Nat → List Nat)
    (ecdsa_verify : List Nat → Nat → Nat → Bool)
    (tx : Transaction) (rs : List Nat) (amount pubkey sig : Nat)
    (h : 0 < tx.input.length) :
    verify_contract_tx_sig bip143_hash ecdsa_verify tx rs amount pubkey sig =
      .ok (match message_from_slice (bip143_hash tx 0 rs amount) with
           | none => false
           | some m => ecdsa_verify m sig pubkey) := by
  unfold verify_contract_tx_sig signature_hash
  rw [if_pos h]
  cases hm : message_from_slice (bip143_hash tx 0 rs amount) <;> simp [hm]

theorem C8_verify_total_with_input_witness :
    0 < (⟨2, 0, [⟨⟨[], 0⟩, 0, [], []⟩], []⟩ : Transaction).input.length
  ∧ verify_contract_tx_sig (fun _ _ _ _ => List.replicate 32 0) (fun _ _ _ => true)
      ⟨2, 0, [⟨⟨[], 0⟩, 0, [], []⟩], []⟩ [] 0 0 0 = .ok true :=
  ⟨by decide,
   C8_verify_total_with_input (fun _ _ _ _ => List.replicate 32 0) (fun _ _ _ => true)
     ⟨2, 0, [⟨⟨[], 0⟩, 0, [], []⟩], []⟩ [] 0 0 0 (by decide)⟩

/-! ### The per-maker sender-contract cache and the maker signing path -/

/-- Modelled from the spec: the lookup of the per-maker sender-contract
cache kept by `wallet_sync::Wallet` (the wallet module is not among the
sources under verification).  The cache maps funding outpoints to
contract script pubkeys; the most recent binding wins. -/
def lookupOutpoint : List (OutPoint × List Nat) → OutPoint → Option (List Nat)
  | [], _ => none
  | (op, spk) :: rest, p => if op = p then some spk else lookupOutpoint rest p

/-- Modelled from the spec: `Wallet::does_prevout_match_cached_contract`
is true when the funding outpoint is absent from the cache or is cached
with the same contract script pubkey. -/
def does_prevout_match_cached_contract (cache : List (OutPoint × List Nat))
    (prevout : OutPoint) (contract_scriptpubkey : List Nat) : Bool :=
  match lookupOutpoint cache prevout with
  | some cached => cached == contract_scriptpubkey
  | none => true

/-- Modelled from the spec: `Wallet::add_prevout_and_contract_to_cache`
inserts (or overwrites) the binding for the funding outpoint. -/
def add_prevout_and_contract_to_cache (cache : List (OutPoint × List Nat))
    (prevout : OutPoint) (contract : List Nat) : List (OutPoint × List Nat) :=
  (prevout, contract) :: cache

section MakerSign

variable {Point : Type} [AddCommGroup Point]
variable (G : Point) (ser_pubkey : Point → PubKey)
variable (wsh : List Nat → List Nat)
variable (bip143_hash : Transaction → Nat → List Nat → Nat → List Nat)
variable (ecdsa_sign : List Nat → Nat → Nat)

/-- `validate_and_sign_senders_contract_tx`, with the wallet cache passed
in and returned explicitly on every path (in the source it lives behind
`&mut Wallet`, so the insertion done before signing survives a signing
failure).  `ser_pubkey` composes `PublicKey { compressed: true, .. }`
with the 33-byte serialization that `push_key` writes.  In the final
match the panicked case of `sign_contract_tx` cannot occur (the input
list is `[inp]` in that branch) and is folded into the signing error. -/
def validate_and_sign_senders_contract_tx
    (multisig_key_nonce hashlock_key_nonce : Nat) (timelock_pubkey : PubKey)
    (senders_contract_tx : Transaction) (multisig_redeemscript : List Nat)
    (funding_input_value : Nat) (hashvalue : Hash160)
    (locktime minimum_locktime : Nat) (tweakable_privkey : Nat)
    (cache : List (OutPoint × List Nat)) :
    Except Error Nat × List (OutPoint × List Nat) :=
  match senders_contract_tx.input, senders_contract_tx.output with
  | [inp], [out] =>
      if does_prevout_match_cached_contract cache inp.previous_output
          out.script_pubkey then
        match secp_add_assign tweakable_privkey hashlock_key_nonce with
        | none =>
            (.error (.protocol "error with hashlock tweakable privkey + hashlock nonce"),
             cache)
        | some hashlock_privkey_from_nonce =>
            match is_contract_out_valid wsh out
                (ser_pubkey (from_secret_key G hashlock_privkey_from_nonce))
                timelock_pubkey hashvalue locktime minimum_locktime with
            | .error e => (.error e, cache)
            | .ok _ =>
                let cache2 := add_prevout_and_contract_to_cache cache
                  inp.previous_output out.script_pubkey
                match secp_add_assign tweakable_privkey multisig_key_nonce with
                | none =>
                    (.error (.protocol "error with multisig tweakable privkey + multisig nonce"),
                     cache2)
                | some multisig_privkey_from_nonce =>
                    match sign_contract_tx bip143_hash ecdsa_sign senders_contract_tx
                        multisig_redeemscript funding_input_value
                        multisig_privkey_from_nonce with
                    | .ok (some sig) => (.ok sig, cache2)
                    | _ => (.error (.protocol "error with signing contract tx"), cache2)
      else
        (.error (.protocol "taker attempting multiple contract attack, rejecting"), cache)
  | _, _ => (.error (.protocol "invalid number of inputs or outputs"), cache)

theorem validate_sign_cache_conflict_rejects
    (mn hn : Nat) (tpk : PubKey) (tx : Transaction) (msrs : List Nat) (fv : Nat)
    (hv : Hash160) (lt mlt tp : Nat) (cache : List (OutPoint × List Nat))
    (inp : TxIn) (out : TxOut) (spk' : List Nat)
    (h1 : tx.input = [inp]) (h2 : tx.output = [out])
    (hlook : lookupOutpoint cache inp.previous_output = some spk')
    (hne : spk' ≠ out.script_pubkey) :
    validate_and_sign_senders_contract_tx G ser_pubkey wsh bip143_hash ecdsa_sign
        mn hn tpk tx msrs fv hv lt mlt tp cache =
      (.error (.protocol "taker attempting multiple contract attack, rejecting"), cache) := by
  have hmatch : does_prevout_match_cached_contract cache inp.previous_output
      out.script_pubkey = false := by
    unfold does_prevout_match_cached_contract
    rw [hlook]
    simp [hne]
  unfold validate_and_sign_senders_contract_tx
  rw [h1, h2]
  simp [hmatch]

theorem validate_sign_success_caches
    (mn hn : Nat) (tpk : PubKey) (tx : Transaction) (msrs : List Nat) (fv : Nat)
    (hv : Hash160) (lt mlt tp : Nat) (cache : List (OutPoint × List Nat))
    (inp : TxIn) (out : TxOut) (sig : Nat) (cache2 : List (OutPoint × List Nat))
    (h1 : tx.input = [inp]) (h2 : tx.output = [out])
    (hok : validate_and_sign_senders_contract_tx G ser_pubkey wsh bip143_hash ecdsa_sign
        mn hn tpk tx msrs fv hv lt mlt tp cache = (.ok sig, cache2)) :
    cache2 = (inp.previous_output, out.script_pubkey) :: cache
  ∧ lookupOutpoint cache2 inp.previous_output = some out.script_pubkey := by
  unfold validate_and_sign_senders_contract_tx at hok
  rw [h1, h2] at hok
  simp only [add_prevout_and_contract_to_cache] at hok
  repeat' split at hok
  all_goals simp only [Prod.mk.injEq] at hok
  any_goals exact (Except.noConfusion hok.1)
  obtain ⟨hs, hc⟩ := hok
  subst hc
  exact ⟨rfl, by simp [lookupOutpoint]⟩

end MakerSign

section MakerSignClaims

variable {Point : Type} [AddCommGroup Point]

/-- C2: the sender-contract cache maps each funding outpoint to at most
one contract script pubkey.  (a) A request whose single input's previous
outpoint is cached with a different script pubkey is rejected with the
multiple-contract-attack protocol error (and the cache is unchanged);
(b) a successfully signed request leaves its (funding outpoint, contract
script pubkey) pair in the returned cache; (c) hence two requests for the
same funding outpoint with different contract script pubkeys can never
both be signed. -/
theorem C2_multiple_contract_attack_defense (G : Point) (ser_pubkey : Point → PubKey)
    (wsh : List Nat → List Nat)
    (bip143_hash : Transaction → Nat → List Nat → Nat → List Nat)
    (ecdsa_sign : List Nat → Nat → Nat) :
    (∀ (mn hn : Nat) (tpk : PubKey) (tx : Transaction) (msrs : List Nat) (fv : Nat)
        (hv : Hash160) (lt mlt tp : Nat) (cache : List (OutPoint × List Nat))
        (inp : TxIn) (out : TxOut) (spk' : List Nat),
        tx.input = [inp] → tx.output = [out] →
        lookupOutpoint cache inp.previous_output = some spk' →
        spk' ≠ out.script_pubkey →
        validate_and_sign_senders_contract_tx G ser_pubkey wsh bip143_hash ecdsa_sign
            mn hn tpk tx msrs fv hv lt mlt tp cache =
          (.error (.protocol "taker attempting multiple contract attack, rejecting"),
           cache))
  ∧ (∀ (mn hn : Nat) (tpk : PubKey) (tx : Transaction) (msrs : List Nat) (fv : Nat)
        (hv : Hash160) (lt mlt tp : Nat) (cache : List (OutPoint × List Nat))
        (inp : TxIn) (out : TxOut) (sig : Nat) (cache2 : List (OutPoint × List Nat)),
        tx.input = [inp] → tx.output = [out] →
        validate_and_sign_senders_contract_tx G ser_pubkey wsh bip143_hash ecdsa_sign
            mn hn tpk tx msrs fv hv lt mlt tp cache = (.ok sig, cache2) →
        lookupOutpoint cache2 inp.previous_output = some out.script_pubkey)
  ∧ (∀ (mn1 hn1 : Nat) (tpk1 : PubKey) (tx1 : Transaction) (msrs1 : List Nat) (fv1 : Nat)
        (hv1 : Hash160) (lt1 mlt1 tp1 : Nat) (cache : List (OutPoint × List Nat))
        (inp1 : TxIn) (out1 : TxOut) (sig1 : Nat) (cache1 : List (OutPoint × List Nat))
        (mn2 hn2 : Nat) (tpk2 : PubKey) (tx2 : Transaction) (msrs2 : List Nat) (fv2 : Nat)
        (hv2 : Hash160) (lt2 mlt2 tp2 : Nat) (inp2 : TxIn) (out2 : TxOut),
        tx1.input = [inp1] → tx1.output = [out1] →
        tx2.input = [inp2] → tx2.output = [out2] →
        inp2.previous_output = inp1.previous_output →
        out2.script_pubkey ≠ out1.script_pubkey →
        validate_and_sign_senders_contract_tx G ser_pubkey wsh bip143_hash ecdsa_sign
            mn1 hn1 tpk1 tx1 msrs1 fv1 hv1 lt1 mlt1 tp1 cache = (.ok sig1, cache1) →
        validate_and_sign_senders_contract_tx G ser_pubkey wsh bip143_hash ecdsa_sign
            mn2 hn2 tpk2 tx2 msrs2 fv2 hv2 lt2 mlt2 tp2 cache1 =
          (.error (.protocol "taker attempting multiple contract attack, rejecting"),
           cache1)) := by
  refine ⟨?_, ?_, ?_⟩
  · intro mn hn tpk tx msrs fv hv lt mlt tp cache inp out spk' h1 h2 hlook hne
    exact validate_sign_cache_conflict_rejects G ser_pubkey wsh bip143_hash ecdsa_sign
      mn hn tpk tx msrs fv hv lt mlt tp cache inp out spk' h1 h2 hlook hne
  · intro mn hn tpk tx msrs fv hv lt mlt tp cache inp out sig cache2 h1 h2 hok
    exact (validate_sign_success_caches G ser_pubkey wsh bip143_hash ecdsa_sign
      mn hn tpk tx msrs fv hv lt mlt tp cache inp out sig cache2 h1 h2 hok).2
  · intro mn1 hn1 tpk1 tx1 msrs1 fv1 hv1 lt1 mlt1 tp1 cache inp1 out1 sig1 cache1
      mn2 hn2 tpk2 tx2 msrs2 fv2 hv2 lt2 mlt2 tp2 inp2 out2
      h11 h12 h21 h22 hprev hne hok1
    have hcached := (validate_sign_success_caches G ser_pubkey wsh bip143_hash ecdsa_sign
      mn1 hn1 tpk1 tx1 msrs1 fv1 hv1 lt1 mlt1 tp1 cache inp1 out1 sig1 cache1
      h11 h12 hok1).2
    refine validate_sign_cache_conflict_rejects G ser_pubkey wsh bip143_hash ecdsa_sign
      mn2 hn2 tpk2 tx2 msrs2 fv2 hv2 lt2 mlt2 tp2 cache1 inp2 out2
      out1.script_pubkey h21 h22 ?_ (fun hcontra => hne hcontra.symm)
    rw [hprev]
    exact hcached

end MakerSignClaims

theorem C2_multiple_contract_attack_defense_witness :
    validate_and_sign_senders_contract_tx (0 : Int)
        (fun _ => ⟨2 :: List.replicate 32 0, by decide⟩)
        (fun l => l) (fun _ _ _ _ => []) (fun _ _ => 0)
        0 0 ⟨2 :: List.replicate 32 0, by decide⟩
        ⟨2, 0, [⟨⟨[], 0⟩, 0, [], []⟩], [⟨5, [2]⟩]⟩ [] 0 ⟨List.replicate 20 0, by decide⟩
        1 0 0 [(⟨[], 0⟩, [1])] =
      (.error (.protocol "taker attempting multiple contract attack, rejecting"),
       [(⟨[], 0⟩, [1])]) :=
  (C2_multiple_contract_attack_defense (0 : Int)
      (fun _ => ⟨2 :: List.replicate 32 0, by decide⟩)
      (fun l => l) (fun _ _ _ _ => []) (fun _ _ => 0)).1
    0 0 ⟨2 :: List.replicate 32 0, by decide⟩ ⟨2, 0, [⟨⟨[], 0⟩, 0, [], []⟩], [⟨5, [2]⟩]⟩
    [] 0 ⟨List.replicate 20 0, by decide⟩ 1 0 0 [(⟨[], 0⟩, [1])]
    ⟨⟨[], 0⟩, 0, [], []⟩ ⟨5, [2]⟩ [1] rfl rfl (by decide) (by decide)

theorem C1_contract_script_roundtrip_witness :
    (1 : Nat) ≤ 5000 ∧ (5000 : Nat) < 65536 ∧
    (read_hashvalue_from_contract (create_contract_redeemscript
        ⟨2 :: List.replicate 32 7, by decide⟩ ⟨3 :: List.replicate 32 9, by decide⟩
        ⟨List.replicate 20 5, by decide⟩ 5000) = .ok (List.replicate 20 5)
     ∧ read_locktime_from_contract (create_contract_redeemscript
        ⟨2 :: List.replicate 32 7, by decide⟩ ⟨3 :: List.replicate 32 9, by decide⟩
        ⟨List.replicate 20 5, by decide⟩ 5000) = some 5000
     ∧ read_hashlock_pubkey_from_contract (create_contract_redeemscript
        ⟨2 :: List.replicate 32 7, by decide⟩ ⟨3 :: List.replicate 32 9, by decide⟩
        ⟨List.replicate 20 5, by decide⟩ 5000) = .ok ⟨2 :: List.replicate 32 7, by decide⟩
     ∧ read_timelock_pubkey_from_contract (create_contract_redeemscript
        ⟨2 :: List.replicate 32 7, by decide⟩ ⟨3 :: List.replicate 32 9, by decide⟩
        ⟨List.replicate 20 5, by decide⟩ 5000) = .ok ⟨3 :: List.replicate 32 9, by decide⟩) :=
  ⟨by norm_num, by norm_num,
   C1_contract_script_roundtrip ⟨2 :: List.replicate 32 7, by decide⟩
     ⟨3 :: List.replicate 32 9, by decide⟩ ⟨List.replicate 20 5, by decide⟩ 5000
     (by norm_num) (by norm_num)⟩
